import Mathlib

/-!
Shallow embedding of the customer-permission import pipeline
(`src/migrations/001_import_customer_permissions.py`,
`src/migrations/002_customer_permission_pandas.py`).

The store is modelled explicitly: the three reference tables are association
lists from natural key to surrogate id, and the `customer_permissions`
junction table is a list of `(user_id, role_id, customer_id)` tuples.
Raw spreadsheet-cell parsing is out of scope (spec §1): the input sheets are
taken as the already-extracted key-column value lists, header excluded.
Each run function additionally returns the ordered list of store events it
performs (connect, lookup queries, existence checks, inserts, commit,
rollback, close), so that statement counts and transaction timing can be
stated over the same embedding.
-/

namespace DBMig

/-- One positionally-aligned input record: the three natural keys. -/
structure RawRecord where
  email : String
  role_name : String
  customer_name : String
deriving DecidableEq, Repr

/-- A resolved permission tuple `(user_id, role_id, customer_id)`. -/
abbrev Fact := Nat × Nat × Nat

/-- The relational store: reference tables as ordered association lists
(natural key, surrogate id) plus the `customer_permissions` junction table. -/
structure Database where
  users : List (String × Nat)
  roles : List (String × Nat)
  customers : List (String × Nat)
  permissions : List Fact
deriving DecidableEq, Repr

/-- Which natural-key field failed to resolve. -/
inductive FailField
  | email
  | role
  | customer
deriving DecidableEq, Repr

/-- An unresolved-reference marker: the failing field and the offending value. -/
structure Unresolved where
  field : FailField
  value : String
deriving DecidableEq, Repr

/-- A row of migration 002's mapped DataFrame: the raw record together with
the three (possibly null) mapped ids; rows of the `missing` frame are the
unresolved-reference markers migration 002 surfaces. -/
structure MappedRow where
  idx : Nat
  raw : RawRecord
  userId : Option Nat
  roleId : Option Nat
  customerId : Option Nat
deriving DecidableEq, Repr

/-- Errors a run can raise past the run boundary. -/
inductive MigErr
  | rowCountMismatch (ulen rlen clen : Nat)
  | unresolvedRefs (missing : List MappedRow)
  | writeError
deriving DecidableEq, Repr

/-- Outcome of a fallible operation (models a Python function that either
returns normally or raises). -/
inductive RunOutcome (α : Type)
  | ok (val : α)
  | error (err : MigErr)
deriving DecidableEq, Repr

/-- Store-side events a run performs, in order. -/
inductive DbEvent
  | loadSource
  | connect
  | queryLookup (entity : String)
  | queryExists
  | execInsert
  | commit
  | rollback
  | close
deriving DecidableEq, Repr

/-- Events that execute a SQL statement on the connection. -/
def isStatement : DbEvent → Bool
  | .queryLookup _ => true
  | .queryExists => true
  | .execInsert => true
  | _ => false

/-- Lookup (reference-table read) statements only. -/
def isLookupQuery : DbEvent → Bool
  | .queryLookup _ => true
  | _ => false

/-- Number of reference-lookup queries in a trace. -/
def lookupQueryCount (tr : List DbEvent) : Nat :=
  (tr.filter isLookupQuery).length

/-- Whether a transaction is open after the given event list, under the
driver semantics the scripts run with (autocommit disabled): an implicit
transaction begins at the first statement executed on the connection and
ends at commit or rollback. -/
def txnScan (tr : List DbEvent) : Bool :=
  tr.foldl
    (fun o e =>
      if isStatement e then true
      else if e == DbEvent.commit || e == DbEvent.rollback then false
      else o)
    false

/-- Whether the transaction is open at the moment the event at index `i`
runs, i.e. after the first `i` events. -/
def txnOpenAt (tr : List DbEvent) (i : Nat) : Bool :=
  txnScan (tr.take i)

namespace Migration001

/-- `resolve_user_id`: `SELECT id FROM users WHERE email = ?` + `fetchone`,
`None` when the user is not found (the source raises `ValueError` there,
which the caller catches per row). -/
def resolve_user_id (db : Database) (email : String) : Option Nat :=
  (db.users.find? (fun p => p.1 == email)).map (fun p => p.2)

/-- `resolve_role_id`: `SELECT id FROM roles WHERE name = ?` + `fetchone`. -/
def resolve_role_id (db : Database) (role_name : String) : Option Nat :=
  (db.roles.find? (fun p => p.1 == role_name)).map (fun p => p.2)

/-- `resolve_customer_id`: `SELECT id FROM customers WHERE name = ?` + `fetchone`. -/
def resolve_customer_id (db : Database) (customer_name : String) : Option Nat :=
  (db.customers.find? (fun p => p.1 == customer_name)).map (fun p => p.2)

/-- `read_excel_data`: combine the three sheets positionally up to the
minimum length; the second component is whether the row-count-mismatch
warning is logged. Inputs are the extracted key-column values (cell parsing
is the out-of-scope boundary). -/
def read_excel_data (us rs cs : List String) : List RawRecord × Bool :=
  ((List.range (min us.length (min rs.length cs.length))).map
      (fun i =>
        { email := us.getD i "", role_name := rs.getD i "",
          customer_name := cs.getD i "" }),
   !(us.length == rs.length && rs.length == cs.length))

/-- Outcome of resolving one row in migration 001. -/
inductive Resolution
  | ok (f : Fact)
  | error (u : Unresolved)
deriving DecidableEq, Repr

/-- Resolution of one row: email, then role, then customer, stopping at the
first lookup that fails (the source raises `ValueError` at that point). -/
def resolveRow (db : Database) (r : RawRecord) : Resolution :=
  match resolve_user_id db r.email with
  | none => .error ⟨.email, r.email⟩
  | some u =>
    match resolve_role_id db r.role_name with
    | none => .error ⟨.role, r.role_name⟩
    | some ro =>
      match resolve_customer_id db r.customer_name with
      | none => .error ⟨.customer, r.customer_name⟩
      | some c => .ok (u, ro, c)

/-- The resolved fact of a row, when all three keys resolve. -/
def resolveOpt (db : Database) (r : RawRecord) : Option Fact :=
  match resolveRow db r with
  | .ok f => some f
  | .error _ => none

/-- The lookup statements issued while resolving one row: one query per key,
stopping after the first failing lookup. -/
def resolveEvents (db : Database) (r : RawRecord) : List DbEvent :=
  match resolve_user_id db r.email with
  | none => [.queryLookup "users"]
  | some _ =>
    match resolve_role_id db r.role_name with
    | none => [.queryLookup "users", .queryLookup "roles"]
    | some _ =>
      [.queryLookup "users", .queryLookup "roles", .queryLookup "customers"]

/-- `permission_exists`: `SELECT COUNT(*) ... WHERE user_id = ? AND
role_id = ? AND customer_id = ?` compared with zero. -/
def permission_exists (perms : List Fact) (f : Fact) : Bool :=
  perms.contains f

/-- `insert_permission`: re-checks existence and appends the tuple only when
absent; returns the statements it ran and the updated junction table. -/
def insert_permission (perms : List Fact) (f : Fact) : List DbEvent × List Fact :=
  if permission_exists perms f then ([.queryExists], perms)
  else ([.queryExists, .execInsert], perms ++ [f])

/-- Per-row counters reported by migration 001: inserted, skipped (already
present), and rows skipped due to a resolution error. -/
structure Counts where
  inserted : Nat
  skipped : Nat
  errored : Nat
deriving DecidableEq, Repr

/-- The per-row loop of `run_migration` (migration 001): resolve the three
ids, catch the `ValueError` of a failed resolution and continue, otherwise
check existence and insert when new.  Returns the event trace, the final
junction table and the counters. -/
def runRows (db : Database) : List RawRecord → List Fact → List DbEvent × List Fact × Counts
  | [], perms => ([], perms, ⟨0, 0, 0⟩)
  | r :: rest, perms =>
    match resolveRow db r with
    | .error _ =>
      (resolveEvents db r ++ (runRows db rest perms).1,
       (runRows db rest perms).2.1,
       { (runRows db rest perms).2.2 with
           errored := (runRows db rest perms).2.2.errored + 1 })
    | .ok f =>
      if permission_exists perms f then
        (resolveEvents db r ++ DbEvent.queryExists :: (runRows db rest perms).1,
         (runRows db rest perms).2.1,
         { (runRows db rest perms).2.2 with
             skipped := (runRows db rest perms).2.2.skipped + 1 })
      else
        (resolveEvents db r ++ DbEvent.queryExists ::
           ((insert_permission perms f).1 ++ (runRows db rest (perms ++ [f])).1),
         (runRows db rest (perms ++ [f])).2.1,
         { (runRows db rest (perms ++ [f])).2.2 with
             inserted := (runRows db rest (perms ++ [f])).2.2.inserted + 1 })

/-- Result of one migration-001 run: the reported outcome, the store after
the run, and the ordered event trace. -/
structure RunResult1 where
  result : RunOutcome Counts
  finalDb : Database
  trace : List DbEvent
deriving Repr

/-- `run_migration` of migration 001: read the sheets, return early with no
connection when there is no data, otherwise connect, process each row
(catching per-row resolution errors), commit and close. -/
def run_migration (db : Database) (us rs cs : List String) : RunResult1 :=
  let data := (read_excel_data us rs cs).1
  if data.isEmpty then
    { result := .ok ⟨0, 0, 0⟩, finalDb := db, trace := [.loadSource] }
  else
    { result := .ok (runRows db data db.permissions).2.2,
      finalDb := { db with permissions := (runRows db data db.permissions).2.1 },
      trace := .loadSource :: .connect ::
        ((runRows db data db.permissions).1 ++ [.commit, .close]) }

end Migration001

namespace Migration002

/-- `fetch_lookup_map`: the dict comprehension `{row[0]: row[1] for row in
cursor.execute(sql).fetchall()}` — on duplicate natural keys the last row
wins. -/
def fetch_lookup_map (table : List (String × Nat)) (k : String) : Option Nat :=
  (table.reverse.find? (fun p => p.1 == k)).map (fun p => p.2)

/-- `load_excel_data`: read the three sheets and combine them column-wise;
raises `ValueError` when the sheet row counts differ. -/
def load_excel_data (us rs cs : List String) : RunOutcome (List RawRecord) :=
  if us.length = rs.length ∧ rs.length = cs.length then
    .ok ((List.range us.length).map
      (fun i =>
        { email := us.getD i "", role_name := rs.getD i "",
          customer_name := cs.getD i "" }))
  else .error (.rowCountMismatch us.length rs.length cs.length)

/-- One row of the mapped DataFrame: the `.map(lookup)` columns added by
migration 002. -/
def mapRow (db : Database) (i : Nat) (r : RawRecord) : MappedRow :=
  { idx := i, raw := r,
    userId := fetch_lookup_map db.users r.email,
    roleId := fetch_lookup_map db.roles r.role_name,
    customerId := fetch_lookup_map db.customers r.customer_name }

/-- The mapped DataFrame rows, carrying their positional index from `i`. -/
def mappedRowsFrom (db : Database) : Nat → List RawRecord → List MappedRow
  | _, [] => []
  | i, r :: rest => mapRow db i r :: mappedRowsFrom db (i + 1) rest

/-- The mapped DataFrame rows of the whole input. -/
def mappedRows (db : Database) (rows : List RawRecord) : List MappedRow :=
  mappedRowsFrom db 0 rows

/-- The `isnull().any(axis=1)` predicate selecting the `missing` frame. -/
def isMissing (m : MappedRow) : Bool :=
  m.userId.isNone || m.roleId.isNone || m.customerId.isNone

/-- The `missing` frame: every row with at least one unresolved reference. -/
def missingRows (db : Database) (rows : List RawRecord) : List MappedRow :=
  (mappedRows db rows).filter isMissing

/-- Full resolution of one row under migration 002's lookup maps. -/
def resolveFact (db : Database) (r : RawRecord) : Option Fact :=
  match fetch_lookup_map db.users r.email, fetch_lookup_map db.roles r.role_name,
        fetch_lookup_map db.customers r.customer_name with
  | some u, some ro, some c => some (u, ro, c)
  | _, _, _ => none

/-- The `(UserId, RoleId, CustomerId)` parameters of one prepared insert
row (`int(r.UserId)` etc.; only evaluated after validation ensured the
values are non-null). -/
def factOf (m : MappedRow) : Fact :=
  (m.userId.getD 0, m.roleId.getD 0, m.customerId.getD 0)

/-- One `INSERT ... SELECT ? ? ? WHERE NOT EXISTS (...)` statement: appends
the tuple when no matching row exists; the second component is the number
of rows the statement affected (1 or 0). -/
def insertNotExists (perms : List Fact) (f : Fact) : List Fact × Nat :=
  if perms.contains f then (perms, 0) else (perms ++ [f], 1)

/-- `cursor.executemany` over the prepared rows: the conditional-insert
statement is executed once per row, in order, inside one batch;
`cursor.rowcount` is modelled as the total number of rows the batch
affected (each statement affects 1 or 0 rows). -/
def executemany : List Fact → List Fact → List Fact × Nat
  | perms, [] => (perms, 0)
  | perms, f :: fs =>
    ((executemany (insertNotExists perms f).1 fs).1,
     (insertNotExists perms f).2 + (executemany (insertNotExists perms f).1 fs).2)

/-- Number of prepared rows whose tuple already matched an existing row at
the moment their statement ran. -/
def matchedExisting : List Fact → List Fact → Nat
  | _, [] => 0
  | perms, f :: fs =>
    if perms.contains f then 1 + matchedExisting perms fs
    else matchedExisting (perms ++ [f]) fs

/-- The `{inserted, skipped}` report migration 002 logs. -/
structure Report where
  inserted : Nat
  skipped : Nat
deriving DecidableEq, Repr

/-- Result of one migration-002 run. -/
structure RunResult2 where
  result : RunOutcome Report
  finalDb : Database
  trace : List DbEvent
deriving Repr

/-- `run_migration` of migration 002: load the sheets (raising on row-count
mismatch), return early with no connection when the frame is empty,
otherwise connect with autocommit off, fetch the three lookup maps, map and
validate (aborting with the aggregate `missing` frame when any reference is
unresolved, after rolling back), else bulk-insert, commit and close. -/
def run_migration (db : Database) (us rs cs : List String) : RunResult2 :=
  match load_excel_data us rs cs with
  | .error e => { result := .error e, finalDb := db, trace := [.loadSource] }
  | .ok rows =>
    if rows.isEmpty then
      { result := .ok ⟨0, 0⟩, finalDb := db, trace := [.loadSource] }
    else if (missingRows db rows).isEmpty then
      { result := .ok
          ⟨(executemany db.permissions ((mappedRows db rows).map factOf)).2,
           rows.length -
             (executemany db.permissions ((mappedRows db rows).map factOf)).2⟩,
        finalDb := { db with
          permissions :=
            (executemany db.permissions ((mappedRows db rows).map factOf)).1 },
        trace := [.loadSource, .connect, .queryLookup "Users",
          .queryLookup "Roles", .queryLookup "Customers", .execInsert,
          .commit, .close] }
    else
      { result := .error (.unresolvedRefs (missingRows db rows)),
        finalDb := db,
        trace := [.loadSource, .connect, .queryLookup "Users",
          .queryLookup "Roles", .queryLookup "Customers", .rollback, .close] }

end Migration002

/-- Which error a run propagates to its caller. -/
inductive Propagated
  | original (e : MigErr)
  | rollbackFailure
deriving DecidableEq, Repr

/-- Observable outcome of the `except`/`finally` epilogue of a failed run:
whether a rollback was attempted, which error reaches the caller, and
whether the connection ends released (no leak). -/
structure CleanupOutcome where
  rollbackAttempted : Bool
  propagated : Propagated
  connReleased : Bool
deriving DecidableEq, Repr

/-- The `except`/`finally` epilogue of migration 001 (lines 315–330): on any
body error, roll back when a connection was opened — the bare
`db.rollback()` call means a rollback failure replaces the body error —
then always run the `finally` close.  `connReleased` is true when no open
connection survives the epilogue. -/
def exceptFinally001 (connOpened : Bool) (origErr : MigErr) (rollbackFails : Bool) :
    CleanupOutcome :=
  if connOpened then
    if rollbackFails then
      { rollbackAttempted := true, propagated := .rollbackFailure, connReleased := true }
    else
      { rollbackAttempted := true, propagated := .original origErr, connReleased := true }
  else
    { rollbackAttempted := false, propagated := .original origErr, connReleased := true }

/-- The `except`/`finally` epilogue of migration 002 (lines 290–305), same
shape: bare `conn.rollback()` inside the handler, cursor and connection
closed in `finally`. -/
def exceptFinally002 (connOpened : Bool) (origErr : MigErr) (rollbackFails : Bool) :
    CleanupOutcome :=
  if connOpened then
    if rollbackFails then
      { rollbackAttempted := true, propagated := .rollbackFailure, connReleased := true }
    else
      { rollbackAttempted := true, propagated := .original origErr, connReleased := true }
  else
    { rollbackAttempted := false, propagated := .original origErr, connReleased := true }

/-- Modelled from the spec (§4.3): the first failing field in the fixed
order email, then role, then customer, with the offending value — the
marker the spec says a resolver must emit. -/
def firstFailingSpec (lu lr lc : String → Option Nat) (r : RawRecord) :
    Option Unresolved :=
  if (lu r.email).isNone then some ⟨.email, r.email⟩
  else if (lr r.role_name).isNone then some ⟨.role, r.role_name⟩
  else if (lc r.customer_name).isNone then some ⟨.customer, r.customer_name⟩
  else none

/-- The first failing field recoverable from a migration-002 marker row, in
the fixed order email, then role, then customer. -/
def firstFailingOfMarker (m : MappedRow) : Option Unresolved :=
  if m.userId.isNone then some ⟨.email, m.raw.email⟩
  else if m.roleId.isNone then some ⟨.role, m.raw.role_name⟩
  else if m.customerId.isNone then some ⟨.customer, m.raw.customer_name⟩
  else none

/-- A small concrete store used by the concrete instances below. -/
def sampleDb : Database :=
  { users := [("a", 1), ("b", 2)],
    roles := [("r", 10), ("s", 11)],
    customers := [("c", 20), ("d", 21)],
    permissions := [] }

namespace Migration001

theorem resolveOpt_error {db : Database} {r : RawRecord} {u : Unresolved}
    (h : resolveRow db r = .error u) : resolveOpt db r = none := by
  simp [resolveOpt, h]

theorem resolveOpt_ok {db : Database} {r : RawRecord} {f : Fact}
    (h : resolveRow db r = .ok f) : resolveOpt db r = some f := by
  simp [resolveOpt, h]

/-- When every resolved fact of the input is fresh (not yet in the junction
table) and the resolved facts are pairwise distinct, the loop appends
exactly the resolved facts, counts them all as inserted, skips none, and
counts every unresolvable row as errored. -/
theorem runRows_fresh (db : Database) (rows : List RawRecord) :
    ∀ perms : List Fact,
      (rows.filterMap (resolveOpt db)).Nodup →
      (∀ f ∈ rows.filterMap (resolveOpt db), f ∉ perms) →
      (runRows db rows perms).2.1 = perms ++ rows.filterMap (resolveOpt db) ∧
      (runRows db rows perms).2.2 =
        ⟨(rows.filterMap (resolveOpt db)).length, 0,
         (rows.filter (fun r => (resolveOpt db r).isNone)).length⟩ := by
  induction rows with
  | nil => intro perms _ _; simp [runRows]
  | cons r rest ih =>
    intro perms hnd hfr
    cases h : resolveRow db r with
    | error u =>
      have hopt : resolveOpt db r = none := resolveOpt_error h
      have hrec := ih perms
        (by simpa [List.filterMap_cons, hopt] using hnd)
        (by intro f hf; exact hfr f (by simp [List.filterMap_cons, hopt, hf]))
      simp [runRows, h, List.filterMap_cons, hopt, List.filter_cons, hrec.1, hrec.2]
    | ok f =>
      have hopt : resolveOpt db r = some f := resolveOpt_ok h
      have hfP : f ∉ perms := hfr f (by simp [List.filterMap_cons, hopt])
      have hex : permission_exists perms f = false := by
        simp [permission_exists]
        exact hfP
      have hnd' : (rest.filterMap (resolveOpt db)).Nodup := by
        rw [List.filterMap_cons, hopt] at hnd
        exact hnd.of_cons
      have hfnotrest : f ∉ rest.filterMap (resolveOpt db) := by
        rw [List.filterMap_cons, hopt] at hnd
        exact (List.nodup_cons.mp hnd).1
      have hfr' : ∀ g ∈ rest.filterMap (resolveOpt db), g ∉ perms ++ [f] := by
        intro g hg
        simp only [List.mem_append, List.mem_singleton]
        rintro (hgp | rfl)
        · exact hfr g (by simp [List.filterMap_cons, hopt, hg]) hgp
        · exact hfnotrest hg
      have hrec := ih (perms ++ [f]) hnd' hfr'
      refine ⟨?_, ?_⟩
      · simp [runRows, h, hex, List.filterMap_cons, hopt, hrec.1]
      · simp [runRows, h, hex, List.filterMap_cons, hopt, List.filter_cons, hrec.2]

/-- When every row resolves to a fact already present in the junction
table, the loop writes nothing and skips every row. -/
theorem runRows_existing (db : Database) (rows : List RawRecord) :
    ∀ perms : List Fact,
      (∀ r ∈ rows, ∃ f, resolveOpt db r = some f ∧ f ∈ perms) →
      (runRows db rows perms).2.1 = perms ∧
      (runRows db rows perms).2.2 = ⟨0, rows.length, 0⟩ := by
  induction rows with
  | nil => intro perms _; simp [runRows]
  | cons r rest ih =>
    intro perms hall
    obtain ⟨f, hf, hfp⟩ := hall r (by simp)
    have h : resolveRow db r = .ok f := by
      unfold resolveOpt at hf
      revert hf
      cases resolveRow db r <;> simp_all
    have hex : permission_exists perms f = true := by
      simp [permission_exists]
      exact hfp
    have hrec := ih perms (fun r' hr' => hall r' (by simp [hr']))
    simp [runRows, h, hex, hrec.1, hrec.2]

/-- Unconditional accuracy of the migration-001 counters: the junction
table grows by exactly the inserted count, inserted + skipped equals the
number of rows that resolved, and errored equals the number that did not. -/
theorem runRows_accuracy (db : Database) (rows : List RawRecord) :
    ∀ perms : List Fact,
      ((runRows db rows perms).2.1).length
          = perms.length + ((runRows db rows perms).2.2).inserted ∧
      ((runRows db rows perms).2.2).inserted + ((runRows db rows perms).2.2).skipped
          = (rows.filter (fun r => (resolveOpt db r).isSome)).length ∧
      ((runRows db rows perms).2.2).errored
          = (rows.filter (fun r => (resolveOpt db r).isNone)).length := by
  induction rows with
  | nil => intro perms; simp [runRows]
  | cons r rest ih =>
    intro perms
    cases h : resolveRow db r with
    | error u =>
      have hopt : resolveOpt db r = none := resolveOpt_error h
      have hrec := ih perms
      simp [runRows, h, List.filter_cons, hopt, hrec.1, hrec.2.1, hrec.2.2]
    | ok f =>
      have hopt : resolveOpt db r = some f := resolveOpt_ok h
      by_cases hex : permission_exists perms f
      · have hrec := ih perms
        simp [runRows, h, hex, List.filter_cons, hopt, hrec.1, hrec.2.1, hrec.2.2]
        omega
      · have hrec := ih (perms ++ [f])
        simp only [Bool.not_eq_true] at hex
        simp [runRows, h, hex, List.filter_cons, hopt, hrec.1, hrec.2.1, hrec.2.2]
        constructor
        · omega
        · omega

/-- The loop only appends facts that were not present when their insert
ran; in particular a tuple already present at the start of the run is never
inserted again. -/
theorem runRows_append (db : Database) (rows : List RawRecord) :
    ∀ perms : List Fact, ∃ new : List Fact,
      (runRows db rows perms).2.1 = perms ++ new ∧ ∀ f ∈ new, f ∉ perms := by
  induction rows with
  | nil => intro perms; exact ⟨[], by simp [runRows], by simp⟩
  | cons r rest ih =>
    intro perms
    cases h : resolveRow db r with
    | error u =>
      obtain ⟨new, hnew, hfr⟩ := ih perms
      exact ⟨new, by simp [runRows, h, hnew], hfr⟩
    | ok f =>
      by_cases hex : permission_exists perms f
      · obtain ⟨new, hnew, hfr⟩ := ih perms
        exact ⟨new, by simp [runRows, h, hex, hnew], hfr⟩
      · obtain ⟨new, hnew, hfr⟩ := ih (perms ++ [f])
        simp only [Bool.not_eq_true] at hex
        refine ⟨f :: new, ?_, ?_⟩
        · simp [runRows, h, hex, hnew]
        · intro g hg
          rcases List.mem_cons.mp hg with rfl | hg'
          · simp [permission_exists] at hex
            exact hex
          · intro hgp
            exact hfr g hg' (by simp [hgp])

/-- All-resolvable inputs issue exactly three lookup queries per row. -/
theorem runRows_lookupCount (db : Database) (rows : List RawRecord) :
    ∀ perms : List Fact,
      (∀ r ∈ rows, (resolveOpt db r).isSome) →
      lookupQueryCount (runRows db rows perms).1 = 3 * rows.length := by
  induction rows with
  | nil => intro perms _; simp [runRows, lookupQueryCount]
  | cons r rest ih =>
    intro perms hall
    have hr : (resolveOpt db r).isSome := hall r (by simp)
    obtain ⟨f, hf⟩ := Option.isSome_iff_exists.mp hr
    have h : resolveRow db r = .ok f := by
      unfold resolveOpt at hf
      revert hf
      cases resolveRow db r <;> simp_all
    have hev : resolveEvents db r
        = [.queryLookup "users", .queryLookup "roles", .queryLookup "customers"] := by
      unfold resolveRow at h
      unfold resolveEvents
      revert h
      cases resolve_user_id db r.email <;>
        cases resolve_role_id db r.role_name <;>
          cases resolve_customer_id db r.customer_name <;> simp
    have hrest : ∀ r' ∈ rest, (resolveOpt db r').isSome :=
      fun r' hr' => hall r' (by simp [hr'])
    by_cases hmem : f ∈ perms
    · have hex : permission_exists perms f = true := by
        simpa [permission_exists] using hmem
      have hrec := ih perms hrest
      simp [runRows, h, hex, hev, lookupQueryCount, List.filter_append,
        isLookupQuery, List.filter_cons] at hrec ⊢
      omega
    · have hex : permission_exists perms f = false := by
        simpa [permission_exists] using hmem
      have hrec := ih (perms ++ [f]) hrest
      simp [runRows, h, hex, hev, insert_permission, lookupQueryCount,
        List.filter_append, isLookupQuery, List.filter_cons] at hrec ⊢
      omega

end Migration001

namespace Migration002

theorem isMissing_mapRow (db : Database) (i : Nat) (r : RawRecord) :
    isMissing (mapRow db i r) = (resolveFact db r).isNone := by
  unfold isMissing mapRow resolveFact
  cases fetch_lookup_map db.users r.email <;>
    cases fetch_lookup_map db.roles r.role_name <;>
      cases fetch_lookup_map db.customers r.customer_name <;> simp

theorem factOf_mapRow {db : Database} {r : RawRecord} {f : Fact} (i : Nat)
    (h : resolveFact db r = some f) : factOf (mapRow db i r) = f := by
  unfold resolveFact at h
  unfold factOf mapRow
  revert h
  cases fetch_lookup_map db.users r.email <;>
    cases fetch_lookup_map db.roles r.role_name <;>
      cases fetch_lookup_map db.customers r.customer_name <;> simp_all

/-- When every row resolves, the `missing` frame is empty and the prepared
facts are exactly the rows' resolved facts, in order. -/
theorem mapped_all_resolved (db : Database) (rows : List RawRecord) (facts : List Fact)
    (h : rows.map (resolveFact db) = facts.map some) :
    ∀ i : Nat,
      (mappedRowsFrom db i rows).filter isMissing = [] ∧
      (mappedRowsFrom db i rows).map factOf = facts := by
  induction rows generalizing facts with
  | nil =>
    intro i
    cases facts with
    | nil => simp [mappedRowsFrom]
    | cons f fs => simp at h
  | cons r rest ih =>
    intro i
    cases facts with
    | nil => simp at h
    | cons f fs =>
      simp only [List.map_cons, List.cons.injEq] at h
      have hrec := ih fs h.2 (i + 1)
      refine ⟨?_, ?_⟩
      · simp [mappedRowsFrom, List.filter_cons, isMissing_mapRow, h.1, hrec.1]
      · simp [mappedRowsFrom, factOf_mapRow i h.1, hrec.2]

/-- Every member of the `missing` frame is a mapped row whose raw record
fails resolution, and every mapped row that fails resolution is in the
`missing` frame. -/
theorem mem_missingRows (db : Database) (rows : List RawRecord) (m : MappedRow) :
    m ∈ missingRows db rows ↔
      m ∈ mappedRows db rows ∧ resolveFact db m.raw = none := by
  unfold missingRows
  rw [List.mem_filter]
  constructor
  · rintro ⟨hmem, hmiss⟩
    refine ⟨hmem, ?_⟩
    have : ∀ i rs, m ∈ mappedRowsFrom db i rs → isMissing m = (resolveFact db m.raw).isNone := by
      intro i rs
      induction rs generalizing i with
      | nil => intro h; simp [mappedRowsFrom] at h
      | cons r rest ih =>
        intro h
        rcases List.mem_cons.mp h with rfl | h'
        · exact isMissing_mapRow db i r
        · exact ih (i + 1) h'
    have hm := this 0 rows hmem
    rw [hm] at hmiss
    exact Option.isNone_iff_eq_none.mp hmiss
  · rintro ⟨hmem, hres⟩
    refine ⟨hmem, ?_⟩
    have : ∀ i rs, m ∈ mappedRowsFrom db i rs → isMissing m = (resolveFact db m.raw).isNone := by
      intro i rs
      induction rs generalizing i with
      | nil => intro h; simp [mappedRowsFrom] at h
      | cons r rest ih =>
        intro h
        rcases List.mem_cons.mp h with rfl | h'
        · exact isMissing_mapRow db i r
        · exact ih (i + 1) h'
    rw [this 0 rows hmem, hres]
    rfl

/-- Bulk insert of pairwise-distinct facts none of which is present appends
them all and reports every statement as affecting one row. -/
theorem executemany_fresh (facts : List Fact) :
    ∀ perms : List Fact, facts.Nodup → (∀ f ∈ facts, f ∉ perms) →
      executemany perms facts = (perms ++ facts, facts.length) := by
  induction facts with
  | nil => intro perms _ _; simp [executemany]
  | cons f fs ih =>
    intro perms hnd hfr
    have hfP : f ∉ perms := hfr f (by simp)
    have hins : insertNotExists perms f = (perms ++ [f], 1) := by
      simp [insertNotExists, hfP]
    have hfr' : ∀ g ∈ fs, g ∉ perms ++ [f] := by
      intro g hg
      simp only [List.mem_append, List.mem_singleton]
      rintro (hgp | rfl)
      · exact hfr g (by simp [hg]) hgp
      · exact (List.nodup_cons.mp hnd).1 hg
    have hrec := ih (perms ++ [f]) (List.nodup_cons.mp hnd).2 hfr'
    simp [executemany, hins, hrec]
    omega

/-- Bulk insert of facts all already present changes nothing and affects
zero rows. -/
theorem executemany_existing (facts : List Fact) :
    ∀ perms : List Fact, (∀ f ∈ facts, f ∈ perms) →
      executemany perms facts = (perms, 0) := by
  induction facts with
  | nil => intro perms _; simp [executemany]
  | cons f fs ih =>
    intro perms hall
    have hfP : f ∈ perms := hall f (by simp)
    have hins : insertNotExists perms f = (perms, 0) := by
      simp [insertNotExists, hfP]
    have hrec := ih perms (fun g hg => hall g (by simp [hg]))
    simp [executemany, hins, hrec]

/-- The junction table grows by exactly the reported affected count. -/
theorem executemany_length (facts : List Fact) :
    ∀ perms : List Fact,
      (executemany perms facts).1.length
        = perms.length + (executemany perms facts).2 := by
  induction facts with
  | nil => intro perms; simp [executemany]
  | cons f fs ih =>
    intro perms
    by_cases hfP : f ∈ perms
    · have hins : insertNotExists perms f = (perms, 0) := by
        simp [insertNotExists, hfP]
      have hrec := ih perms
      simp [executemany, hins, hrec]
    · have hins : insertNotExists perms f = (perms ++ [f], 1) := by
        simp [insertNotExists, hfP]
      have hrec := ih (perms ++ [f])
      simp [executemany, hins, hrec]
      omega

/-- Every prepared row is either affected (inserted) or matched an existing
tuple at the moment its statement ran. -/
theorem executemany_matched (facts : List Fact) :
    ∀ perms : List Fact,
      (executemany perms facts).2 + matchedExisting perms facts = facts.length := by
  induction facts with
  | nil => intro perms; simp [executemany, matchedExisting]
  | cons f fs ih =>
    intro perms
    by_cases hfP : f ∈ perms
    · have hins : insertNotExists perms f = (perms, 0) := by
        simp [insertNotExists, hfP]
      have hrec := ih perms
      simp [executemany, hins, matchedExisting, hfP]
      omega
    · have hins : insertNotExists perms f = (perms ++ [f], 1) := by
        simp [insertNotExists, hfP]
      have hrec := ih (perms ++ [f])
      simp [executemany, hins, matchedExisting, hfP]
      omega

/-- The bulk insert only appends tuples that were absent when their
statement ran; a tuple already present is never appended again. -/
theorem executemany_append (facts : List Fact) :
    ∀ perms : List Fact, ∃ new : List Fact,
      (executemany perms facts).1 = perms ++ new ∧ ∀ f ∈ new, f ∉ perms := by
  induction facts with
  | nil => intro perms; exact ⟨[], by simp [executemany], by simp⟩
  | cons f fs ih =>
    intro perms
    by_cases hfP : f ∈ perms
    · have hins : insertNotExists perms f = (perms, 0) := by
        simp [insertNotExists, hfP]
      obtain ⟨new, hnew, hfr⟩ := ih perms
      exact ⟨new, by simp [executemany, hins, hnew], hfr⟩
    · have hins : insertNotExists perms f = (perms ++ [f], 1) := by
        simp [insertNotExists, hfP]
      obtain ⟨new, hnew, hfr⟩ := ih (perms ++ [f])
      refine ⟨f :: new, ?_, ?_⟩
      · simp [executemany, hins, hnew]
      · intro g hg
        rcases List.mem_cons.mp hg with rfl | hg'
        · exact hfP
        · intro hgp
          exact hfr g hg' (by simp [hgp])

end Migration002

theorem filterMap_eq_of_map_some {α β : Type} (f : α → Option β) :
    ∀ (l : List α) (fs : List β), l.map f = fs.map some → l.filterMap f = fs := by
  intro l
  induction l with
  | nil => intro fs h; cases fs <;> simp_all
  | cons x xs ih =>
    intro fs h
    cases fs with
    | nil => simp at h
    | cons y ys =>
      simp only [List.map_cons, List.cons.injEq] at h
      simp [List.filterMap_cons, h.1, ih ys h.2]

theorem filter_none_eq_nil_of_map_some {α β : Type} (f : α → Option β) :
    ∀ (l : List α) (fs : List β), l.map f = fs.map some →
      l.filter (fun x => (f x).isNone) = [] := by
  intro l
  induction l with
  | nil => intro fs _; simp
  | cons x xs ih =>
    intro fs h
    cases fs with
    | nil => simp at h
    | cons y ys =>
      simp only [List.map_cons, List.cons.injEq] at h
      simp [List.filter_cons, h.1, ih ys h.2]

theorem mem_of_map_some {α β : Type} (f : α → Option β) :
    ∀ (l : List α) (fs : List β), l.map f = fs.map some →
      ∀ x ∈ l, ∃ y, f x = some y ∧ y ∈ fs := by
  intro l
  induction l with
  | nil => intro fs _ x hx; simp at hx
  | cons z xs ih =>
    intro fs h x hx
    cases fs with
    | nil => simp at h
    | cons y ys =>
      simp only [List.map_cons, List.cons.injEq] at h
      rcases List.mem_cons.mp hx with rfl | hx'
      · exact ⟨y, h.1, by simp⟩
      · obtain ⟨w, hw, hwm⟩ := ih ys h.2 x hx'
        exact ⟨w, hw, by simp [hwm]⟩

theorem length_eq_of_map_some {α β : Type} (f : α → Option β)
    (l : List α) (fs : List β) (h : l.map f = fs.map some) :
    l.length = fs.length := by
  have := congrArg List.length h
  simpa using this

/-- C1: running the full pipeline twice against the same input and starting
store yields inserted = K, skipped = 0 on the first run and inserted = 0,
skipped = K on the second, for K resolvable rows (fresh, pairwise-distinct
resolved tuples), in both migrations; and in any run of either migration a
permission tuple already present in the store is never inserted a second
time. -/
theorem C1_pipeline_idempotent
    (db : Database) (us rs cs : List String) (rows : List RawRecord)
    (facts1 facts2 : List Fact)
    (hrows : (Migration001.read_excel_data us rs cs).1 = rows)
    (hload : Migration002.load_excel_data us rs cs = .ok rows)
    (h1 : rows.map (Migration001.resolveOpt db) = facts1.map some)
    (hnd1 : facts1.Nodup)
    (hfr1 : ∀ f ∈ facts1, f ∉ db.permissions)
    (h2 : rows.map (Migration002.resolveFact db) = facts2.map some)
    (hnd2 : facts2.Nodup)
    (hfr2 : ∀ f ∈ facts2, f ∉ db.permissions) :
    (Migration001.run_migration db us rs cs).result = .ok ⟨facts1.length, 0, 0⟩ ∧
    (Migration001.run_migration (Migration001.run_migration db us rs cs).finalDb
        us rs cs).result = .ok ⟨0, facts1.length, 0⟩ ∧
    (Migration002.run_migration db us rs cs).result = .ok ⟨facts2.length, 0⟩ ∧
    (Migration002.run_migration (Migration002.run_migration db us rs cs).finalDb
        us rs cs).result = .ok ⟨0, facts2.length⟩ ∧
    (∀ (db' : Database) (us' rs' cs' : List String), ∀ f ∈ db'.permissions,
      ∃ new, (Migration001.run_migration db' us' rs' cs').finalDb.permissions
          = db'.permissions ++ new ∧ f ∉ new) ∧
    (∀ (db' : Database) (us' rs' cs' : List String), ∀ f ∈ db'.permissions,
      ∃ new, (Migration002.run_migration db' us' rs' cs').finalDb.permissions
          = db'.permissions ++ new ∧ f ∉ new) := by
  have hgen1 : ∀ (db' : Database) (us' rs' cs' : List String), ∀ f ∈ db'.permissions,
      ∃ new, (Migration001.run_migration db' us' rs' cs').finalDb.permissions
          = db'.permissions ++ new ∧ f ∉ new := by
    intro db' us' rs' cs' f hf
    unfold Migration001.run_migration
    by_cases hemp : ((Migration001.read_excel_data us' rs' cs').1).isEmpty
    · exact ⟨[], by simp [hemp], by simp⟩
    · obtain ⟨new, hnew, hfr⟩ :=
        Migration001.runRows_append db' (Migration001.read_excel_data us' rs' cs').1
          db'.permissions
      exact ⟨new, by simp [hemp, hnew], fun hfn => hfr f hfn hf⟩
  have hgen2 : ∀ (db' : Database) (us' rs' cs' : List String), ∀ f ∈ db'.permissions,
      ∃ new, (Migration002.run_migration db' us' rs' cs').finalDb.permissions
          = db'.permissions ++ new ∧ f ∉ new := by
    intro db' us' rs' cs' f hf
    unfold Migration002.run_migration
    cases hl : Migration002.load_excel_data us' rs' cs' with
    | error e => exact ⟨[], by simp, by simp⟩
    | ok rows' =>
      by_cases hemp : rows'.isEmpty
      · exact ⟨[], by simp [hemp], by simp⟩
      · by_cases hmiss : (Migration002.missingRows db' rows').isEmpty
        · obtain ⟨new, hnew, hfr⟩ :=
            Migration002.executemany_append
              ((Migration002.mappedRows db' rows').map Migration002.factOf)
              db'.permissions
          exact ⟨new, by simp [hemp, hmiss, hnew], fun hfn => hfr f hfn hf⟩
        · exact ⟨[], by simp [hemp, hmiss], by simp⟩
  -- first and second migration-001 runs
  have hlen1 : rows.length = facts1.length :=
    length_eq_of_map_some _ rows facts1 h1
  have hfm1 : rows.filterMap (Migration001.resolveOpt db) = facts1 :=
    filterMap_eq_of_map_some _ rows facts1 h1
  cases rows with
  | nil =>
    have hf1 : facts1 = [] := by cases facts1 <;> simp_all
    have hf2 : facts2 = [] := by cases facts2 <;> simp_all
    subst hf1 hf2
    refine ⟨?_, ?_, ?_, ?_, hgen1, hgen2⟩ <;>
      simp [Migration001.run_migration, Migration002.run_migration, hrows, hload]
  | cons r rest =>
    have hne : ¬ ((Migration001.read_excel_data us rs cs).1).isEmpty := by
      rw [hrows]; simp
    have hfresh := Migration001.runRows_fresh db (r :: rest) db.permissions
      (by rw [hfm1]; exact hnd1)
      (by rw [hfm1]; exact hfr1)
    have hzero : ((r :: rest).filter
        (fun r' => (Migration001.resolveOpt db r').isNone)).length = 0 := by
      rw [filter_none_eq_nil_of_map_some _ _ facts1 h1]
      rfl
    have hres1 : (Migration001.run_migration db us rs cs).result
        = .ok ⟨facts1.length, 0, 0⟩ := by
      unfold Migration001.run_migration
      rw [hrows]
      simp only [List.isEmpty_cons, if_false, Bool.false_eq_true]
      rw [hfresh.2, hfm1, hzero]
    have hdb1 : (Migration001.run_migration db us rs cs).finalDb
        = { db with permissions := db.permissions ++ facts1 } := by
      unfold Migration001.run_migration
      rw [hrows]
      simp only [List.isEmpty_cons, if_false, Bool.false_eq_true]
      rw [hfresh.1, hfm1]
    have hres1' : (Migration001.run_migration
        (Migration001.run_migration db us rs cs).finalDb us rs cs).result
        = .ok ⟨0, facts1.length, 0⟩ := by
      rw [hdb1]
      have hall : ∀ r' ∈ (r :: rest),
          ∃ f, Migration001.resolveOpt { db with permissions := db.permissions ++ facts1 } r'
              = some f ∧ f ∈ db.permissions ++ facts1 := by
        intro r' hr'
        obtain ⟨f, hfe, hfm⟩ := mem_of_map_some _ (r :: rest) facts1 h1 r' hr'
        exact ⟨f, hfe, by simp [hfm]⟩
      have hex := Migration001.runRows_existing
        { db with permissions := db.permissions ++ facts1 } (r :: rest)
        (db.permissions ++ facts1) hall
      unfold Migration001.run_migration
      rw [hrows]
      simp only [List.isEmpty_cons, if_false, Bool.false_eq_true]
      rw [hex.2]
      simp [hlen1]
    -- migration 002 runs
    have hmap := Migration002.mapped_all_resolved db (r :: rest) facts2 h2 0
    have hmiss : (Migration002.missingRows db (r :: rest)).isEmpty := by
      unfold Migration002.missingRows Migration002.mappedRows
      rw [hmap.1]
      rfl
    have hlen2 : (r :: rest).length = facts2.length :=
      length_eq_of_map_some _ _ facts2 h2
    have hex2 := Migration002.executemany_fresh facts2 db.permissions hnd2 hfr2
    have hres2 : (Migration002.run_migration db us rs cs).result
        = .ok ⟨facts2.length, 0⟩ := by
      unfold Migration002.run_migration
      rw [hload]
      simp only [List.isEmpty_cons, if_false, Bool.false_eq_true, hmiss, if_true]
      rw [show Migration002.mappedRows db (r :: rest)
            = Migration002.mappedRowsFrom db 0 (r :: rest) from rfl]
      rw [hmap.2, hex2]
      simp [hlen2]
    have hdb2 : (Migration002.run_migration db us rs cs).finalDb
        = { db with permissions := db.permissions ++ facts2 } := by
      unfold Migration002.run_migration
      rw [hload]
      simp only [List.isEmpty_cons, if_false, Bool.false_eq_true, hmiss, if_true]
      rw [show Migration002.mappedRows db (r :: rest)
            = Migration002.mappedRowsFrom db 0 (r :: rest) from rfl]
      rw [hmap.2, hex2]
    have hres2' : (Migration002.run_migration
        (Migration002.run_migration db us rs cs).finalDb us rs cs).result
        = .ok ⟨0, facts2.length⟩ := by
      rw [hdb2]
      have h2' : (r :: rest).map
          (Migration002.resolveFact { db with permissions := db.permissions ++ facts2 })
          = facts2.map some := h2
      have hmap' := Migration002.mapped_all_resolved
        { db with permissions := db.permissions ++ facts2 } (r :: rest) facts2 h2' 0
      have hmiss' : (Migration002.missingRows
          { db with permissions := db.permissions ++ facts2 } (r :: rest)).isEmpty := by
        unfold Migration002.missingRows Migration002.mappedRows
        rw [hmap'.1]
        rfl
      have hex2' := Migration002.executemany_existing facts2 (db.permissions ++ facts2)
        (fun f hf => by simp [hf])
      unfold Migration002.run_migration
      rw [hload]
      simp only [List.isEmpty_cons, if_false, Bool.false_eq_true, hmiss', if_true]
      rw [show Migration002.mappedRows
            { db with permissions := db.permissions ++ facts2 } (r :: rest)
            = Migration002.mappedRowsFrom
                { db with permissions := db.permissions ++ facts2 } 0 (r :: rest) from rfl]
      rw [hmap'.2, hex2']
      simp [hlen2]
    exact ⟨hres1, hres1', hres2, hres2', hgen1, hgen2⟩

/-- Witness for C1 at a concrete two-row input against `sampleDb`. -/
theorem C1_pipeline_idempotent_witness :
    (Migration001.run_migration sampleDb ["a", "b"] ["r", "s"] ["c", "d"]).result
        = .ok ⟨2, 0, 0⟩ ∧
    (Migration001.run_migration
        (Migration001.run_migration sampleDb ["a", "b"] ["r", "s"] ["c", "d"]).finalDb
        ["a", "b"] ["r", "s"] ["c", "d"]).result = .ok ⟨0, 2, 0⟩ ∧
    (Migration002.run_migration sampleDb ["a", "b"] ["r", "s"] ["c", "d"]).result
        = .ok ⟨2, 0⟩ ∧
    (Migration002.run_migration
        (Migration002.run_migration sampleDb ["a", "b"] ["r", "s"] ["c", "d"]).finalDb
        ["a", "b"] ["r", "s"] ["c", "d"]).result = .ok ⟨0, 2⟩ := by
  have h := C1_pipeline_idempotent sampleDb ["a", "b"] ["r", "s"] ["c", "d"]
    [⟨"a", "r", "c"⟩, ⟨"b", "s", "d"⟩]
    [(1, 10, 20), (2, 11, 21)] [(1, 10, 20), (2, 11, 21)]
    (by decide) (by decide) (by decide) (by decide) (by decide)
    (by decide) (by decide) (by decide)
  exact ⟨h.1, h.2.1, h.2.2.1, h.2.2.2.1⟩

/-- C2: under the strict policy (migration 002), if any input row has a
natural key that does not resolve, the run aborts before any write, the
store is unchanged, and the aggregate list of all unresolved rows — every
mapped row whose resolution fails, not just the first — is surfaced as one
error. -/
theorem C2_strict_abort
    (db : Database) (us rs cs : List String) (rows : List RawRecord)
    (hload : Migration002.load_excel_data us rs cs = .ok rows)
    (hmiss : Migration002.missingRows db rows ≠ []) :
    (Migration002.run_migration db us rs cs).result
        = .error (.unresolvedRefs (Migration002.missingRows db rows)) ∧
    (Migration002.run_migration db us rs cs).finalDb = db ∧
    DbEvent.execInsert ∉ (Migration002.run_migration db us rs cs).trace ∧
    ∀ m : MappedRow, m ∈ Migration002.missingRows db rows ↔
      m ∈ Migration002.mappedRows db rows ∧ Migration002.resolveFact db m.raw = none := by
  cases rows with
  | nil =>
    exfalso
    exact hmiss (by rfl)
  | cons r rest =>
    have hmiss' : ¬ (Migration002.missingRows db (r :: rest)).isEmpty := by
      simpa [List.isEmpty_iff] using hmiss
    refine ⟨?_, ?_, ?_, fun m => Migration002.mem_missingRows db (r :: rest) m⟩ <;>
      · unfold Migration002.run_migration
        rw [hload]
        simp [hmiss']

/-- Witness for C2: the second row's email does not resolve, the run errors
with that single aggregate marker and writes nothing. -/
theorem C2_strict_abort_witness :
    (Migration002.run_migration sampleDb ["a", "zz"] ["r", "s"] ["c", "d"]).result
        = .error (.unresolvedRefs
            [⟨1, ⟨"zz", "s", "d"⟩, none, some 11, some 21⟩]) ∧
    (Migration002.run_migration sampleDb ["a", "zz"] ["r", "s"] ["c", "d"]).finalDb
        = sampleDb ∧
    DbEvent.execInsert
        ∉ (Migration002.run_migration sampleDb ["a", "zz"] ["r", "s"] ["c", "d"]).trace := by
  have h := C2_strict_abort sampleDb ["a", "zz"] ["r", "s"] ["c", "d"]
    [⟨"a", "r", "c"⟩, ⟨"zz", "s", "d"⟩] (by decide) (by decide)
  have hm : Migration002.missingRows sampleDb [⟨"a", "r", "c"⟩, ⟨"zz", "s", "d"⟩]
      = [⟨1, ⟨"zz", "s", "d"⟩, none, some 11, some 21⟩] := by decide
  exact ⟨by rw [← hm]; exact h.1, h.2.1, h.2.2.1⟩

/-- C3: under the tolerant policy (migration 001), a row whose resolution
fails is excluded and every other row still processed: with 5 input rows of
which exactly the third fails resolution (the rest resolving to fresh,
distinct facts), the run completes with an ok result, 4 facts written, none
skipped, and 1 row reported skipped-due-to-error. -/
theorem C3_tolerant_partial
    (db : Database) (us rs cs : List String)
    (r1 r2 r3 r4 r5 : RawRecord) (f1 f2 f4 f5 : Fact)
    (hrows : (Migration001.read_excel_data us rs cs).1 = [r1, r2, r3, r4, r5])
    (h1 : Migration001.resolveOpt db r1 = some f1)
    (h2 : Migration001.resolveOpt db r2 = some f2)
    (h3 : Migration001.resolveOpt db r3 = none)
    (h4 : Migration001.resolveOpt db r4 = some f4)
    (h5 : Migration001.resolveOpt db r5 = some f5)
    (hnd : [f1, f2, f4, f5].Nodup)
    (hfr : ∀ f ∈ [f1, f2, f4, f5], f ∉ db.permissions) :
    (Migration001.run_migration db us rs cs).result = .ok ⟨4, 0, 1⟩ ∧
    (Migration001.run_migration db us rs cs).finalDb.permissions
        = db.permissions ++ [f1, f2, f4, f5] := by
  have hfm : ([r1, r2, r3, r4, r5].filterMap (Migration001.resolveOpt db))
      = [f1, f2, f4, f5] := by
    simp [List.filterMap_cons, h1, h2, h3, h4, h5]
  have hfl : ([r1, r2, r3, r4, r5].filter
      (fun r => (Migration001.resolveOpt db r).isNone)) = [r3] := by
    simp [List.filter_cons, h1, h2, h3, h4, h5]
  have hfresh := Migration001.runRows_fresh db [r1, r2, r3, r4, r5] db.permissions
    (by rw [hfm]; exact hnd) (by rw [hfm]; exact hfr)
  constructor
  · unfold Migration001.run_migration
    rw [hrows]
    simp only [List.isEmpty_cons, if_false, Bool.false_eq_true]
    rw [hfresh.2, hfm, hfl]
    rfl
  · unfold Migration001.run_migration
    rw [hrows]
    simp only [List.isEmpty_cons, if_false, Bool.false_eq_true]
    rw [hfresh.1, hfm]

/-- Witness for C3 at a concrete 5-row input whose third row has an
unresolvable email. -/
theorem C3_tolerant_partial_witness :
    (Migration001.run_migration sampleDb
        ["a", "a", "zz", "b", "b"] ["r", "s", "r", "r", "s"]
        ["c", "d", "c", "d", "c"]).result = .ok ⟨4, 0, 1⟩ ∧
    (Migration001.run_migration sampleDb
        ["a", "a", "zz", "b", "b"] ["r", "s", "r", "r", "s"]
        ["c", "d", "c", "d", "c"]).finalDb.permissions
        = [(1, 10, 20), (1, 11, 21), (2, 10, 21), (2, 11, 20)] := by
  have h := C3_tolerant_partial sampleDb
    ["a", "a", "zz", "b", "b"] ["r", "s", "r", "r", "s"] ["c", "d", "c", "d", "c"]
    ⟨"a", "r", "c"⟩ ⟨"a", "s", "d"⟩ ⟨"zz", "r", "c"⟩ ⟨"b", "r", "d"⟩ ⟨"b", "s", "c"⟩
    (1, 10, 20) (1, 11, 21) (2, 10, 21) (2, 11, 20)
    (by decide) (by decide) (by decide) (by decide) (by decide) (by decide)
    (by decide) (by decide)
  exact ⟨h.1, by rw [h.2]; rfl⟩

/-- C4 counterexample: on sheets with differing row counts, migration 002's
source phase fails the run with a row-count-mismatch error instead of
producing min-length records with a warning. -/
theorem C4_counterexample :
    (Migration002.run_migration sampleDb ["a", "b"] ["r"] ["c", "d"]).result
        = .error (.rowCountMismatch 2 1 2) ∧
    (Migration002.run_migration sampleDb ["a", "b"] ["r"] ["c", "d"]).finalDb
        = sampleDb := by
  decide

/-- C4 (amended): when sheet row counts differ, migration 001's source
phase produces exactly min-length positionally-aligned records pairing rows
by index, surfaces the warning-level mismatch signal, and the run still
completes; migration 002's source phase instead raises a
row-count-mismatch error that fails the run. -/
theorem C4_min_length_alignment
    (db : Database) (us rs cs : List String)
    (hne : ¬ (us.length = rs.length ∧ rs.length = cs.length)) :
    (Migration001.read_excel_data us rs cs).1.length
        = min us.length (min rs.length cs.length) ∧
    (∀ i, i < min us.length (min rs.length cs.length) →
      (Migration001.read_excel_data us rs cs).1.getD i ⟨"", "", ""⟩
        = ⟨us.getD i "", rs.getD i "", cs.getD i ""⟩) ∧
    (Migration001.read_excel_data us rs cs).2 = true ∧
    (∃ c, (Migration001.run_migration db us rs cs).result = .ok c) ∧
    Migration002.load_excel_data us rs cs
        = .error (.rowCountMismatch us.length rs.length cs.length) ∧
    (Migration002.run_migration db us rs cs).result
        = .error (.rowCountMismatch us.length rs.length cs.length) := by
  refine ⟨?_, ?_, ?_, ?_, ?_, ?_⟩
  · simp [Migration001.read_excel_data]
  · intro i hi
    simp [Migration001.read_excel_data, List.getD_eq_getElem?_getD,
      List.getElem?_map, List.getElem?_range, hi]
  · simp only [Migration001.read_excel_data, Bool.not_eq_true', Bool.and_eq_true,
      beq_iff_eq, not_and_or]
    rcases Decidable.not_and_iff_or_not.mp hne with h | h <;> simp [h]
  · by_cases hemp : ((Migration001.read_excel_data us rs cs).1).isEmpty
    · exact ⟨⟨0, 0, 0⟩, by unfold Migration001.run_migration; rw [if_pos hemp]⟩
    · exact ⟨(Migration001.runRows db (Migration001.read_excel_data us rs cs).1
          db.permissions).2.2,
        by unfold Migration001.run_migration; rw [if_neg hemp]⟩
  · simp [Migration002.load_excel_data, hne]
  · unfold Migration002.run_migration
    rw [show Migration002.load_excel_data us rs cs
        = .error (.rowCountMismatch us.length rs.length cs.length) by
      simp [Migration002.load_excel_data, hne]]

/-- Witness for the amended C4 at a concrete mismatched input. -/
theorem C4_min_length_alignment_witness :
    (Migration001.read_excel_data ["a", "b"] ["r"] ["c", "d"]).1.length = 1 ∧
    (Migration001.read_excel_data ["a", "b"] ["r"] ["c", "d"]).2 = true ∧
    Migration002.load_excel_data ["a", "b"] ["r"] ["c", "d"]
        = .error (.rowCountMismatch 2 1 2) := by
  have h := C4_min_length_alignment sampleDb ["a", "b"] ["r"] ["c", "d"] (by decide)
  exact ⟨h.1, h.2.2.1, h.2.2.2.2.1⟩

/-- Unfolding of migration 002's run once the source load succeeded. -/
theorem run002_eq_of_load (db : Database) {us rs cs : List String}
    {rows : List RawRecord}
    (hload : Migration002.load_excel_data us rs cs = .ok rows) :
    Migration002.run_migration db us rs cs
      = if rows.isEmpty then
          { result := .ok ⟨0, 0⟩, finalDb := db, trace := [.loadSource] }
        else if (Migration002.missingRows db rows).isEmpty then
          { result := .ok
              ⟨(Migration002.executemany db.permissions
                  ((Migration002.mappedRows db rows).map Migration002.factOf)).2,
               rows.length -
                 (Migration002.executemany db.permissions
                   ((Migration002.mappedRows db rows).map Migration002.factOf)).2⟩,
            finalDb := { db with
              permissions :=
                (Migration002.executemany db.permissions
                  ((Migration002.mappedRows db rows).map Migration002.factOf)).1 },
            trace := [.loadSource, .connect, .queryLookup "Users",
              .queryLookup "Roles", .queryLookup "Customers", .execInsert,
              .commit, .close] }
        else
          { result := .error (.unresolvedRefs (Migration002.missingRows db rows)),
            finalDb := db,
            trace := [.loadSource, .connect, .queryLookup "Users",
              .queryLookup "Roles", .queryLookup "Customers", .rollback,
              .close] } := by
  unfold Migration002.run_migration
  rw [hload]

/-- C5: the reported counts are accurate in both migrations: inserted
equals the number of rows actually added to the junction table during the
run, inserted + skipped equals the number of facts submitted to the
writer, errored (001) counts the unresolvable rows, and skipped (002)
counts exactly the prepared facts whose tuple matched an existing row when
their statement ran. -/
theorem C5_report_accuracy (db : Database) (us rs cs : List String) :
    (∀ c : Migration001.Counts,
      (Migration001.run_migration db us rs cs).result = .ok c →
      (Migration001.run_migration db us rs cs).finalDb.permissions.length
          = db.permissions.length + c.inserted ∧
      c.inserted + c.skipped
          = (((Migration001.read_excel_data us rs cs).1).filter
              (fun r => (Migration001.resolveOpt db r).isSome)).length ∧
      c.errored
          = (((Migration001.read_excel_data us rs cs).1).filter
              (fun r => (Migration001.resolveOpt db r).isNone)).length) ∧
    (∀ (rows : List RawRecord) (rep : Migration002.Report),
      Migration002.load_excel_data us rs cs = .ok rows →
      (Migration002.run_migration db us rs cs).result = .ok rep →
      (Migration002.run_migration db us rs cs).finalDb.permissions.length
          = db.permissions.length + rep.inserted ∧
      rep.inserted + rep.skipped = rows.length ∧
      rep.skipped = Migration002.matchedExisting db.permissions
          ((Migration002.mappedRows db rows).map Migration002.factOf)) := by
  constructor
  · intro c hok
    have hacc := Migration001.runRows_accuracy db
      (Migration001.read_excel_data us rs cs).1 db.permissions
    by_cases hemp : ((Migration001.read_excel_data us rs cs).1).isEmpty
    · have hnil : (Migration001.read_excel_data us rs cs).1 = [] :=
        List.isEmpty_iff.mp hemp
      have hc : c = ⟨0, 0, 0⟩ := by
        have := hok
        unfold Migration001.run_migration at this
        rw [if_pos hemp] at this
        cases this
        rfl
      subst hc
      unfold Migration001.run_migration
      rw [if_pos hemp, hnil]
      simp
    · have hc : c = (Migration001.runRows db
          (Migration001.read_excel_data us rs cs).1 db.permissions).2.2 := by
        have := hok
        unfold Migration001.run_migration at this
        rw [if_neg hemp] at this
        cases this
        rfl
      subst hc
      unfold Migration001.run_migration
      rw [if_neg hemp]
      exact ⟨hacc.1, hacc.2.1, hacc.2.2⟩
  · intro rows rep hload hok
    rw [run002_eq_of_load db hload] at hok ⊢
    by_cases hemp : rows.isEmpty
    · have hnil : rows = [] := List.isEmpty_iff.mp hemp
      rw [if_pos hemp] at hok ⊢
      cases hok
      subst hnil
      simp [Migration002.mappedRows, Migration002.mappedRowsFrom,
        Migration002.matchedExisting]
    · rw [if_neg hemp] at hok ⊢
      by_cases hmiss : (Migration002.missingRows db rows).isEmpty
      · rw [if_pos hmiss] at hok ⊢
        have hrep : rep =
            ⟨(Migration002.executemany db.permissions
                ((Migration002.mappedRows db rows).map Migration002.factOf)).2,
             rows.length -
               (Migration002.executemany db.permissions
                 ((Migration002.mappedRows db rows).map Migration002.factOf)).2⟩ := by
          cases hok
          rfl
        subst hrep
        have hlen := Migration002.executemany_length
          ((Migration002.mappedRows db rows).map Migration002.factOf) db.permissions
        have hmat := Migration002.executemany_matched
          ((Migration002.mappedRows db rows).map Migration002.factOf) db.permissions
        have hmlen : ((Migration002.mappedRows db rows).map Migration002.factOf).length
            = rows.length := by
          rw [List.length_map]
          show (Migration002.mappedRowsFrom db 0 rows).length = rows.length
          clear hmat hlen hok hmiss hemp hload
          generalize 0 = i
          induction rows generalizing i with
          | nil => rfl
          | cons r rest ih => simp [Migration002.mappedRowsFrom, ih]
        refine ⟨hlen, ?_, ?_⟩ <;> simp <;> omega
      · rw [if_neg hmiss] at hok
        cases hok

/-- Witness for C5 at a concrete input with one duplicate row and one
unresolvable row. -/
theorem C5_report_accuracy_witness :
    (Migration001.run_migration sampleDb ["a", "a", "zz"] ["r", "r", "s"]
        ["c", "c", "d"]).result = .ok ⟨1, 1, 1⟩ ∧
    (Migration001.run_migration sampleDb ["a", "a", "zz"] ["r", "r", "s"]
        ["c", "c", "d"]).finalDb.permissions.length
        = sampleDb.permissions.length + 1 ∧
    (Migration002.run_migration sampleDb ["a", "a"] ["r", "r"] ["c", "c"]).result
        = .ok ⟨1, 1⟩ ∧
    (Migration002.run_migration sampleDb ["a", "a"] ["r", "r"]
        ["c", "c"]).finalDb.permissions.length = sampleDb.permissions.length + 1 := by
  have h1 := (C5_report_accuracy sampleDb ["a", "a", "zz"] ["r", "r", "s"]
    ["c", "c", "d"]).1 ⟨1, 1, 1⟩ (by decide)
  have h2 := (C5_report_accuracy sampleDb ["a", "a"] ["r", "r"] ["c", "c"]).2
    [⟨"a", "r", "c"⟩, ⟨"a", "r", "c"⟩] ⟨1, 1⟩ (by decide) (by decide)
  exact ⟨by decide, h1.1, by decide, h2.1⟩

/-- C6: whenever at least one natural key of a record fails to resolve, the
emitted unresolved-reference marker identifies the first failing field in
the fixed order email, then role, then customer, with the offending value:
migration 001's per-row error is exactly that marker, and migration 002's
missing-frame row determines it. -/
theorem C6_first_failing_field (db : Database) (r : RawRecord) :
    (∀ u : Unresolved, Migration001.resolveRow db r = .error u ↔
      firstFailingSpec (Migration001.resolve_user_id db)
        (Migration001.resolve_role_id db)
        (Migration001.resolve_customer_id db) r = some u) ∧
    (∀ i : Nat, Migration002.isMissing (Migration002.mapRow db i r) = true →
      firstFailingOfMarker (Migration002.mapRow db i r)
          = firstFailingSpec (Migration002.fetch_lookup_map db.users)
              (Migration002.fetch_lookup_map db.roles)
              (Migration002.fetch_lookup_map db.customers) r ∧
      (firstFailingOfMarker (Migration002.mapRow db i r)).isSome) := by
  constructor
  · intro u
    unfold Migration001.resolveRow firstFailingSpec
    cases Migration001.resolve_user_id db r.email <;>
      cases Migration001.resolve_role_id db r.role_name <;>
        cases Migration001.resolve_customer_id db r.customer_name <;>
          simp [eq_comm]
  · intro i hm
    unfold Migration002.isMissing Migration002.mapRow at hm
    unfold firstFailingOfMarker firstFailingSpec Migration002.mapRow
    revert hm
    cases Migration002.fetch_lookup_map db.users r.email <;>
      cases Migration002.fetch_lookup_map db.roles r.role_name <;>
        cases Migration002.fetch_lookup_map db.customers r.customer_name <;>
          simp

/-- Witness for C6: a record whose role and customer both fail to resolve
is marked with the role field (its first failing field) and value in both
migrations. -/
theorem C6_first_failing_field_witness :
    Migration001.resolveRow sampleDb ⟨"a", "qq", "ww"⟩ = .error ⟨.role, "qq"⟩ ∧
    firstFailingOfMarker (Migration002.mapRow sampleDb 0 ⟨"a", "qq", "ww"⟩)
        = some ⟨.role, "qq"⟩ := by
  have h1 := (C6_first_failing_field sampleDb ⟨"a", "qq", "ww"⟩).1 ⟨.role, "qq"⟩
  have h2 := (C6_first_failing_field sampleDb ⟨"a", "qq", "ww"⟩).2 0 (by decide)
  exact ⟨h1.mpr (by decide), by rw [h2.1]; decide⟩

/-- C7 counterexample: in migration 001 the number of lookup queries grows
with the number of input records — 3 for a one-row input but 6 for a
two-row input against the same store — so lookups are per-row queries, not
one bulk read per reference entity. -/
theorem C7_counterexample :
    lookupQueryCount (Migration001.run_migration sampleDb ["a"] ["r"] ["c"]).trace
        = 3 ∧
    lookupQueryCount
        (Migration001.run_migration sampleDb ["a", "b"] ["r", "s"] ["c", "d"]).trace
        = 6 := by
  decide

/-- C7 (amended): migration 002 issues exactly one bulk lookup query per
reference entity — three in total, independent of the number of input
records — while migration 001 issues one resolution query per key per input
row: 3·N lookup queries for N all-resolvable rows. -/
theorem C7_lookup_queries
    (db : Database) (us rs cs : List String) (rows : List RawRecord)
    (hload : Migration002.load_excel_data us rs cs = .ok rows)
    (hne : rows ≠ [])
    (hall : ∀ r ∈ (Migration001.read_excel_data us rs cs).1,
        (Migration001.resolveOpt db r).isSome) :
    lookupQueryCount (Migration002.run_migration db us rs cs).trace = 3 ∧
    lookupQueryCount (Migration001.run_migration db us rs cs).trace
        = 3 * ((Migration001.read_excel_data us rs cs).1).length := by
  constructor
  · rw [run002_eq_of_load db hload]
    have hemp : rows.isEmpty = false := by
      cases rows with
      | nil => exact absurd rfl hne
      | cons r rest => rfl
    rw [if_neg (by simp [hemp])]
    by_cases hmiss : (Migration002.missingRows db rows).isEmpty
    · rw [if_pos hmiss]
      rfl
    · rw [if_neg hmiss]
      rfl
  · have hcount := Migration001.runRows_lookupCount db
      (Migration001.read_excel_data us rs cs).1 db.permissions hall
    by_cases hemp : ((Migration001.read_excel_data us rs cs).1).isEmpty
    · have hnil : (Migration001.read_excel_data us rs cs).1 = [] :=
        List.isEmpty_iff.mp hemp
      unfold Migration001.run_migration
      rw [if_pos hemp, hnil]
      rfl
    · unfold Migration001.run_migration
      rw [if_neg hemp]
      simp only [lookupQueryCount, List.filter_cons, List.filter_append] at hcount ⊢
      simpa [isLookupQuery] using hcount

/-- Witness for the amended C7 at a two-row input. -/
theorem C7_lookup_queries_witness :
    lookupQueryCount
        (Migration002.run_migration sampleDb ["a", "b"] ["r", "s"] ["c", "d"]).trace
        = 3 ∧
    lookupQueryCount
        (Migration001.run_migration sampleDb ["a", "b"] ["r", "s"] ["c", "d"]).trace
        = 3 * 2 := by
  have h := C7_lookup_queries sampleDb ["a", "b"] ["r", "s"] ["c", "d"]
    [⟨"a", "r", "c"⟩, ⟨"b", "s", "d"⟩] (by decide) (by decide) (by decide)
  exact ⟨h.1, h.2⟩

/-- C8 counterexample: in migration 002 the transaction — autocommit is
disabled, so it opens implicitly at the first statement on the connection —
is already open while the lookup-build queries run: the Roles lookup at
trace position 3 executes with the transaction open, so the transaction is
held across the lookup-build phase. -/
theorem C8_counterexample :
    (Migration002.run_migration sampleDb ["a"] ["r"] ["c"]).trace.get? 3
        = some (.queryLookup "Roles") ∧
    txnOpenAt (Migration002.run_migration sampleDb ["a"] ["r"] ["c"]).trace 3
        = true := by
  decide

/-- C8 (amended): in both migrations the source-load phase precedes the
connection and runs with no transaction open, and the transaction opens no
earlier than the first statement after connecting; but in migration 002
that first statement is the Users lookup, so the second and third
lookup-build queries already run inside the open transaction — it brackets
lookup-build, validation and write, not the write phase alone. -/
theorem C8_transaction_scope (db : Database) (us rs cs : List String) :
    (Migration001.run_migration db us rs cs).trace.get? 0 = some .loadSource ∧
    txnOpenAt (Migration001.run_migration db us rs cs).trace 1 = false ∧
    (Migration002.run_migration db us rs cs).trace.get? 0 = some .loadSource ∧
    txnOpenAt (Migration002.run_migration db us rs cs).trace 1 = false ∧
    (∀ rows : List RawRecord,
      Migration002.load_excel_data us rs cs = .ok rows → rows ≠ [] →
      (Migration002.run_migration db us rs cs).trace.get? 2
          = some (.queryLookup "Users") ∧
      txnOpenAt (Migration002.run_migration db us rs cs).trace 2 = false ∧
      (Migration002.run_migration db us rs cs).trace.get? 3
          = some (.queryLookup "Roles") ∧
      txnOpenAt (Migration002.run_migration db us rs cs).trace 3 = true ∧
      (Migration002.run_migration db us rs cs).trace.get? 4
          = some (.queryLookup "Customers") ∧
      txnOpenAt (Migration002.run_migration db us rs cs).trace 4 = true) := by
  refine ⟨?_, ?_, ?_, ?_, ?_⟩
  · unfold Migration001.run_migration
    by_cases hemp : ((Migration001.read_excel_data us rs cs).1).isEmpty
    · rw [if_pos hemp]
      rfl
    · rw [if_neg hemp]
      rfl
  · unfold Migration001.run_migration
    by_cases hemp : ((Migration001.read_excel_data us rs cs).1).isEmpty
    · rw [if_pos hemp]
      rfl
    · rw [if_neg hemp]
      rfl
  · cases hl : Migration002.load_excel_data us rs cs with
    | error e =>
      unfold Migration002.run_migration
      rw [hl]
      rfl
    | ok rows =>
      rw [run002_eq_of_load db hl]
      by_cases hemp : rows.isEmpty
      · rw [if_pos hemp]
        rfl
      · rw [if_neg hemp]
        by_cases hmiss : (Migration002.missingRows db rows).isEmpty
        · rw [if_pos hmiss]
          rfl
        · rw [if_neg hmiss]
          rfl
  · cases hl : Migration002.load_excel_data us rs cs with
    | error e =>
      unfold Migration002.run_migration
      rw [hl]
      rfl
    | ok rows =>
      rw [run002_eq_of_load db hl]
      by_cases hemp : rows.isEmpty
      · rw [if_pos hemp]
        rfl
      · rw [if_neg hemp]
        by_cases hmiss : (Migration002.missingRows db rows).isEmpty
        · rw [if_pos hmiss]
          rfl
        · rw [if_neg hmiss]
          rfl
  · intro rows hload hne
    rw [run002_eq_of_load db hload]
    have hemp : rows.isEmpty = false := by
      cases rows with
      | nil => exact absurd rfl hne
      | cons r rest => rfl
    rw [if_neg (by simp [hemp])]
    by_cases hmiss : (Migration002.missingRows db rows).isEmpty
    · rw [if_pos hmiss]
      refine ⟨rfl, rfl, rfl, rfl, rfl, rfl⟩
    · rw [if_neg hmiss]
      refine ⟨rfl, rfl, rfl, rfl, rfl, rfl⟩

/-- Witness for the amended C8 at a concrete resolvable one-row input. -/
theorem C8_transaction_scope_witness :
    (Migration001.run_migration sampleDb ["a"] ["r"] ["c"]).trace.get? 0
        = some .loadSource ∧
    txnOpenAt (Migration002.run_migration sampleDb ["a"] ["r"] ["c"]).trace 2
        = false ∧
    txnOpenAt (Migration002.run_migration sampleDb ["a"] ["r"] ["c"]).trace 3
        = true := by
  have h := C8_transaction_scope sampleDb ["a"] ["r"] ["c"]
  have h5 := h.2.2.2.2 [⟨"a", "r", "c"⟩] (by decide) (by decide)
  exact ⟨h.1, h5.2.1, h5.2.2.2.1⟩

/-- C9 counterexample: when the rollback itself fails, the error propagated
to the caller is the rollback failure — the bare rollback call inside the
handler masks the original triggering error in both migrations. -/
theorem C9_counterexample :
    (exceptFinally001 true MigErr.writeError true).propagated
        = Propagated.rollbackFailure ∧
    (exceptFinally001 true MigErr.writeError true).propagated
        ≠ Propagated.original MigErr.writeError ∧
    (exceptFinally002 true MigErr.writeError true).propagated
        = Propagated.rollbackFailure := by
  decide

/-- C9 (amended): on every failure path a rollback is attempted exactly
when the connection was opened, regardless of the error kind, and the
connection is released by the final cleanup on every exit path; when the
rollback succeeds the original error is the one propagated, but a rollback
failure propagates in place of the original error instead of being logged
and suppressed. -/
theorem C9_failure_epilogue (opened : Bool) (e : MigErr) (rbFails : Bool) :
    (exceptFinally001 opened e rbFails).rollbackAttempted = opened ∧
    (exceptFinally001 opened e rbFails).connReleased = true ∧
    (rbFails = false →
      (exceptFinally001 opened e rbFails).propagated = .original e) ∧
    (opened = true → rbFails = true →
      (exceptFinally001 opened e rbFails).propagated = .rollbackFailure) ∧
    (exceptFinally002 opened e rbFails).rollbackAttempted = opened ∧
    (exceptFinally002 opened e rbFails).connReleased = true ∧
    (rbFails = false →
      (exceptFinally002 opened e rbFails).propagated = .original e) ∧
    (opened = true → rbFails = true →
      (exceptFinally002 opened e rbFails).propagated = .rollbackFailure) := by
  cases opened <;> cases rbFails <;> simp [exceptFinally001, exceptFinally002]

/-- Witness for the amended C9 at a concrete failure with a succeeding
rollback. -/
theorem C9_failure_epilogue_witness :
    (exceptFinally001 true MigErr.writeError false).rollbackAttempted = true ∧
    (exceptFinally001 true MigErr.writeError false).propagated
        = .original MigErr.writeError ∧
    (exceptFinally002 true MigErr.writeError false).connReleased = true := by
  have h := C9_failure_epilogue true MigErr.writeError false
  exact ⟨h.1, h.2.2.1 rfl, h.2.2.2.2.2.1⟩

/-- C10: an input that parses to zero data records makes both runs succeed
as no-ops: ok result, store unchanged, and a trace containing only the
source load — no connection is opened, no lookup query and no insert is
issued. -/
theorem C10_empty_noop (db : Database) (us rs cs : List String)
    (h1 : (Migration001.read_excel_data us rs cs).1 = [])
    (h2 : Migration002.load_excel_data us rs cs = .ok []) :
    Migration001.run_migration db us rs cs
        = { result := .ok ⟨0, 0, 0⟩, finalDb := db, trace := [.loadSource] } ∧
    Migration002.run_migration db us rs cs
        = { result := .ok ⟨0, 0⟩, finalDb := db, trace := [.loadSource] } := by
  constructor
  · unfold Migration001.run_migration
    rw [h1]
    rfl
  · rw [run002_eq_of_load db h2]
    rfl

/-- Witness for C10 at the empty input. -/
theorem C10_empty_noop_witness :
    Migration001.run_migration sampleDb [] [] []
        = { result := .ok ⟨0, 0, 0⟩, finalDb := sampleDb, trace := [.loadSource] } ∧
    Migration002.run_migration sampleDb [] [] []
        = { result := .ok ⟨0, 0⟩, finalDb := sampleDb, trace := [.loadSource] } :=
  C10_empty_noop sampleDb [] [] [] (by rfl) (by rfl)

end DBMig
